import Mathlib

/-
Shallow embedding of the WhatsApp bulk-messaging server (Express + Puppeteer
backend, `server.js` of the repository).  The stateful parts of the program
are embedded as pure Lean functions over an explicit `ServerState`, with the
outcomes of the asynchronous browser operations (which puppeteer call throws,
which UI element appears) supplied by explicit environment records, so every
control-flow path of the source is represented by a concrete environment.
Machine state that exists only to be observed by the theorems (the log of
`browser.close()` invocations, the id counter for launched browser
instances, the trace of Send Executor invocations and inter-message delays)
is carried alongside the embedded JS state.
-/

namespace WaServer

/-! ## String helpers mirroring the JS primitives used by the source -/

/-- Bool test that the list `n` is an initial segment of `h`
(character-by-character comparison). -/
def listHasPfx : List Char → List Char → Bool
  | [], _ => true
  | _ :: _, [] => false
  | a :: as, b :: bs => a == b && listHasPfx as bs

/-- JS `hay.includes(needle)`: `needle` occurs contiguously in `hay`. -/
def jsIncludes (hay needle : String) : Bool :=
  (List.range (hay.data.length + 1)).any (fun i => listHasPfx needle.data (hay.data.drop i))

/-- JS `phone.replace(/\D/g, '')`: keep only the decimal digits. -/
def formatPhone (p : String) : String :=
  String.mk (p.data.filter Char.isDigit)

/-- Upper-case hexadecimal digit for `n < 16`. -/
def hexDigit (n : Nat) : Char :=
  if n < 10 then Char.ofNat (48 + n) else Char.ofNat (55 + n)

/-- Characters `encodeURIComponent` leaves unescaped:
alphanumerics and `- _ . ! ~ * ( )` and the apostrophe (code point 39). -/
def isUnreservedChar (c : Char) : Bool :=
  c.isAlphanum || "-_.!~*()".contains c || c.toNat == 39

/-- JS `encodeURIComponent`: unreserved characters pass through, every other
character is replaced by the percent-encoding of its UTF-8 bytes. -/
def encodeURIComponent (s : String) : String :=
  s.data.foldl
    (fun acc c =>
      if isUnreservedChar c then acc.push c
      else
        acc ++ String.join
          (((String.singleton c).toUTF8.toList).map
            (fun b => "%" ++ String.mk [hexDigit (b.toNat / 16), hexDigit (b.toNat % 16)])))
    ""

/-- Root URL of the primary surface (`https://web.whatsapp.com/`). -/
def waRootUrl : String := "https://web.whatsapp.com/"

/-- The deep-link URL built by `sendWhatsAppMessage` (server.js line 143). -/
def sendUrl (phone message : String) : String :=
  "https://web.whatsapp.com/send/?phone=%2B" ++ formatPhone phone
    ++ "&text=" ++ encodeURIComponent message ++ "&type=phone_number"

/-- `page.url().includes('web.whatsapp.com')`. -/
def isWaUrl (u : String) : Bool := jsIncludes u "web.whatsapp.com"

/-- `url.includes('send/?phone=')`: marks an ephemeral per-send surface. -/
def isSendSurfaceUrl (u : String) : Bool := jsIncludes u "send/?phone="

/-! ## Data model -/

/-- The `whatsappSessionState` record (server.js lines 18-23).
`initDone` embeds the source field named `initialized`. -/
structure SessionState where
  initDone : Bool
  active : Bool
  lastActivity : Option Nat
  activeTabs : List String
deriving DecidableEq

/-- One launched puppeteer browser: its instance id (bookkeeping for the
lifecycle theorems) and the URLs of its open pages. -/
structure BrowserInst where
  id : Nat
  pages : List String
deriving DecidableEq

/-- Whole-process state: the `browser` variable, the session record and
`messageDelay` (server.js lines 17-26), plus observation-only bookkeeping:
`closes` logs every `browser.close()` invocation by instance id, and
`nextId` numbers the instances created so far. -/
structure ServerState where
  browser : Option BrowserInst
  session : SessionState
  messageDelay : Int
  closes : List Nat
  nextId : Nat
deriving DecidableEq

/-- State at process start (server.js lines 17-26): no browser, empty
session record, `messageDelay = 5000`. -/
def freshState : ServerState :=
  { browser := none
    session := { initDone := false, active := false, lastActivity := none, activeTabs := [] }
    messageDelay := 5000
    closes := []
    nextId := 0 }

/-! ## Surface Reaper: `closeExistingWhatsAppTabs` (server.js lines 32-74) -/

/-- Environment for one reaper run: whether the first `browser.pages()`
enumeration throws, whether the re-enumeration after the soft close throws,
and which page URLs fail their `page.close()` call. -/
structure ReapEnv where
  pagesFails : Bool
  pagesFails2 : Bool
  closeFailUrls : List String
deriving DecidableEq

/-- `closeExistingWhatsAppTabs(forceClose)`.  If no browser exists, return at
once (line 34).  If the enumeration throws, the outer catch swallows it and
no state changes.  Otherwise close every whatsapp page (force) or every
ephemeral send page (soft); per-page close failures are swallowed and the
page stays open.  Force: set `activeTabs := []`, `active := false`
unconditionally (lines 58-60).  Soft: re-enumerate; if that throws, the
session record is left as it was; otherwise recompute `activeTabs` and
`active` from the remaining whatsapp pages (lines 62-68). -/
def closeExistingWhatsAppTabs (env : ReapEnv) (force : Bool) (st : ServerState) : ServerState :=
  match st.browser with
  | none => st
  | some b =>
    if env.pagesFails then st
    else
      let newPages := b.pages.filter
        (fun u => !(isWaUrl u && (force || isSendSurfaceUrl u) && !env.closeFailUrls.contains u))
      let st1 := { st with browser := some { b with pages := newPages } }
      if force then
        { st1 with session := { st1.session with activeTabs := [], active := false } }
      else
        if env.pagesFails2 then st1
        else
          let remaining := newPages.filter isWaUrl
          { st1 with session :=
              { st1.session with activeTabs := remaining,
                                 active := decide (0 < remaining.length) } }

/-! ## Browser Lifecycle Manager: `initBrowser` (server.js lines 80-119) -/

/-- `initBrowser()`.  If a browser exists its `close()` is invoked first
(best-effort, logged to `closes`).  If the launch fails, the thrown error
leaves `browser` still referencing the old (now closed) object and sets
`initialized := false` (lines 114-118); the Bool result `false` marks the
propagated exception.  On success a fresh instance (one `about:blank` page)
replaces the handle and `initialized := true`, `lastActivity` is stamped. -/
def initBrowser (launchFails : Bool) (now : Nat) (st : ServerState) : Bool × ServerState :=
  let closes1 :=
    match st.browser with
    | some b => st.closes ++ [b.id]
    | none => st.closes
  if launchFails then
    (false, { st with closes := closes1,
                      session := { st.session with initDone := false } })
  else
    (true, { st with closes := closes1,
                     browser := some { id := st.nextId, pages := ["about:blank"] },
                     nextId := st.nextId + 1,
                     session := { st.session with initDone := true,
                                                  lastActivity := some now } })

/-- `i` is a live browser instance in `st`: it was created and its `close()`
was never invoked. -/
def aliveInst (st : ServerState) (i : Nat) : Prop :=
  i < st.nextId ∧ i ∉ st.closes

instance (st : ServerState) (i : Nat) : Decidable (aliveInst st i) := by
  unfold aliveInst; infer_instance

/-! ## Status, close and update-delay endpoints -/

/-- Result of a control endpoint: 2xx JSON or an error response. -/
inductive EndpointResult where
  | ok
  | err
deriving DecidableEq

/-- Environment for `/api/whatsapp-status`: whether `browser.pages()` throws. -/
structure StatusEnv where
  pagesFails : Bool
deriving DecidableEq

/-- `/api/whatsapp-status` (server.js lines 316-362): without a browser,
report not-ready and change nothing; if `pages()` throws, the catch responds
500 and changes nothing; otherwise recompute `activeTabs`/`active` from the
live whatsapp pages and report ready iff at least one is open. -/
def whatsappStatus (env : StatusEnv) (st : ServerState) : Bool × ServerState :=
  match st.browser with
  | none => (false, st)
  | some b =>
    if env.pagesFails then (false, st)
    else
      let wa := b.pages.filter isWaUrl
      (decide (0 < wa.length),
       { st with session := { st.session with activeTabs := wa,
                                              active := decide (0 < wa.length) } })

/-- `/api/close-whatsapp` (server.js lines 367-384): force-reap; the reaper
never throws, so the endpoint always responds success. -/
def closeWhatsApp (env : ReapEnv) (st : ServerState) : EndpointResult × ServerState :=
  (.ok, closeExistingWhatsAppTabs env true st)

/-- The `delay` field of a JSON request body: absent, of non-number type, or
a number. -/
inductive DelayField where
  | missing
  | notNumber
  | num (n : Int)

/-- `/api/update-delay` (server.js lines 389-414): reject unless the field
is a number `≥ 1000` (and truthy; `0 < 1000` already rejects zero),
otherwise set `messageDelay`. -/
def updateDelayEndpoint (d : DelayField) (st : ServerState) : EndpointResult × ServerState :=
  match d with
  | .num n => if n < 1000 then (.err, st) else (.ok, { st with messageDelay := n })
  | _ => (.err, st)

/-! ## Send Executor: `sendWhatsAppMessage` (server.js lines 134-241) -/

/-- Environment for one send attempt: which browser/UI operations fail or
succeed on this run.  `closeFails` makes every `page.close()` attempt of the
run throw. -/
structure SendEnv where
  newPageFails : Bool
  gotoFails : Bool
  sendButtonAppears : Bool
  clickSendFails : Bool
  okSelectorFound : Bool
  evaluateFails : Bool
  genericOkFound : Bool
  closeFails : Bool
deriving DecidableEq

/-- Result of one send attempt: the boolean the source returns, the
browser page list after the attempt, and how many `page.close()` calls were
attempted on the ephemeral page. -/
structure SendResult where
  sent : Bool
  pages : List String
  closeAttempts : Nat
deriving DecidableEq

/-- A `page.close()` performed inside the invalid-number `try` block
(server.js line 220 or 226): if it throws, the `okButtonError` catch closes
once more (line 232); if that throws too, the outer catch returns `false`
without further cleanup. -/
def closeInTry (env : SendEnv) (pagesOpen pagesClosed : List String) (a : Nat) : SendResult :=
  if env.closeFails then ⟨false, pagesOpen, a + 2⟩
  else ⟨false, pagesClosed, a + 1⟩

/-- The invalid-number probe (server.js lines 170-235), entered when the
Send button path did not complete.  `a` counts close attempts already made.
Ordered selector strategies first; if none hit, a generic DOM scan
(`evaluateHandle`, which may itself throw into the `okButtonError` catch);
every branch returns `false` and attempts to close the ephemeral page. -/
def okProbe (env : SendEnv) (pagesOpen pagesClosed : List String) (a : Nat) : SendResult :=
  if env.okSelectorFound then
    closeInTry env pagesOpen pagesClosed a
  else if env.evaluateFails then
    -- okButtonError catch: one close attempt (line 232); if it throws the
    -- outer catch returns false with the page still open
    if env.closeFails then ⟨false, pagesOpen, a + 1⟩
    else ⟨false, pagesClosed, a + 1⟩
  else if env.genericOkFound then
    closeInTry env pagesOpen pagesClosed a
  else
    closeInTry env pagesOpen pagesClosed a

/-- `sendWhatsAppMessage(phone, message)` run against the browser page list
`pages`.  Mirrors the source exactly: `newPage` failure and `goto` failure
fall to the outer catch, which returns `false` without closing the page
(on a `goto` failure the freshly opened page is left open); the happy path
clicks Send, waits and closes, returning `true`; a close failure on the
happy path falls into the Send-button catch and continues with the
invalid-number probe; every probe branch returns `false`. -/
def sendWhatsAppMessage (env : SendEnv) (phone message : String) (pages : List String) :
    SendResult :=
  if env.newPageFails then ⟨false, pages, 0⟩
  else if env.gotoFails then ⟨false, pages ++ ["about:blank"], 0⟩
  else
    let pagesOpen := pages ++ [sendUrl phone message]
    if env.sendButtonAppears && !env.clickSendFails then
      if env.closeFails then okProbe env pagesOpen pages 1
      else ⟨true, pages, 1⟩
    else okProbe env pagesOpen pages 0

/-! ## Batch Coordinator: `POST /send-messages` (server.js lines 247-311) -/

/-- One entry of the `contacts` array. -/
structure Contact where
  phone : Option String
  message : Option String
deriving DecidableEq

/-- The `contacts` field of the request body. -/
inductive ContactsField where
  | missing
  | notArray
  | arr (cs : List Contact)

/-- JS falsiness of an optional string field: absent or empty. -/
def falsyStr : Option String → Bool
  | none => true
  | some s => s == ""

/-- The skip test of the loop (line 280): `!phone || !message`. -/
def blankContact (c : Contact) : Bool :=
  falsyStr c.phone || falsyStr c.message

/-- The batch-level delay override (line 258):
`delay && typeof delay === 'number' && delay >= 1000`. -/
def startDelay (df : DelayField) (d : Int) : Int :=
  match df with
  | .num n => if 1000 ≤ n then n else d
  | _ => d

/-- An update-delay request running at an await point of the batch loop:
applied with the `/api/update-delay` acceptance rule. -/
def applyInterf (u : Option Int) (d : Int) : Int :=
  match u with
  | none => d
  | some n => if n < 1000 then d else n

/-- Environment of one batch request: reaper behaviour, whether a lazy
browser launch would fail, the Send Executor environment of each loop index,
and `interf i`: an `/api/update-delay` request arriving at the await points
of iteration `i` (the event loop may run it between the send and the
delay read of that iteration). -/
structure BatchEnv where
  reapEnv : ReapEnv
  launchFails : Bool
  sendEnvs : Nat → SendEnv
  interf : Nat → Option Int

/-- HTTP outcome of `POST /send-messages`: 400 validation failure, 200 with
the two counters and the delay, or the 500 path of the outer catch. -/
inductive BatchResponse where
  | badRequest
  | ok (successCount failCount : Nat) (delay : Int)
  | serverError
deriving DecidableEq

/-- Observation trace of one batch request: loop indices at which the Send
Executor was invoked, the inter-message delays performed (ms), and whether
the soft reap and the lazy browser initialization were reached. -/
structure BatchTrace where
  attempted : List Nat
  delays : List Int
  reaped : Bool
  lazyInitTried : Bool
deriving DecidableEq

/-- Accumulator of the contact loop. -/
structure LoopAcc where
  success : Nat
  fail : Nat
  st : ServerState
  attempted : List Nat
  delays : List Int

/-- One Send Executor call from the loop: `sendWhatsAppMessage` against the
current browser page list.  If `browser` is unset, `browser.newPage()`
throws and the outer catch of the executor returns `false`. -/
def doSend (senv : SendEnv) (phone message : String) (st : ServerState) : Bool × ServerState :=
  match st.browser with
  | none => (false, st)
  | some b =>
    let r := sendWhatsAppMessage senv phone message b.pages
    (r.sent, { st with browser := some { b with pages := r.pages } })

/-- One iteration of the contact loop (lines 276-300).  A blank contact
increments `failCount` and `continue`s, skipping the send and the delay.
Otherwise the Send Executor runs; success stamps `lastActivity`; a pending
update-delay request may run at this await point (`applyInterf`); the
inter-message delay is performed only when this is not the last contact. -/
def stepItem (senv : SendEnv) (interf : Option Int) (now : Nat)
    (c : Contact) (i : Nat) (isLast : Bool) (acc : LoopAcc) : LoopAcc :=
  if blankContact c then { acc with fail := acc.fail + 1 }
  else
    let p := c.phone.getD ""
    let m := c.message.getD ""
    let res := doSend senv p m acc.st
    let acc1 :=
      if res.1 then
        { acc with success := acc.success + 1,
                   st := { res.2 with session := { res.2.session with lastActivity := some now } },
                   attempted := acc.attempted ++ [i] }
      else
        { acc with fail := acc.fail + 1, st := res.2, attempted := acc.attempted ++ [i] }
    let d := applyInterf interf acc1.st.messageDelay
    let acc2 := { acc1 with st := { acc1.st with messageDelay := d } }
    if isLast then acc2 else { acc2 with delays := acc2.delays ++ [d] }

/-- The contact loop, indexed from `i`. -/
def runContacts (se : Nat → SendEnv) (interf : Nat → Option Int) (now : Nat) :
    List Contact → Nat → LoopAcc → LoopAcc
  | [], _, acc => acc
  | c :: rest, i, acc =>
      runContacts se interf now rest (i + 1)
        (stepItem (se i) (interf i) now c i rest.isEmpty acc)

/-- `POST /send-messages`.  Validation first (line 250): missing,
non-array or empty `contacts` is rejected with 400 before any other
effect.  Then the delay override, the soft reap, the lazy browser
initialization (its failure is the one 500 path), and the loop. -/
def sendMessages (env : BatchEnv) (contacts : ContactsField) (delayF : DelayField)
    (now : Nat) (st : ServerState) : BatchResponse × ServerState × BatchTrace :=
  match contacts with
  | .missing => (.badRequest, st, ⟨[], [], false, false⟩)
  | .notArray => (.badRequest, st, ⟨[], [], false, false⟩)
  | .arr [] => (.badRequest, st, ⟨[], [], false, false⟩)
  | .arr (c :: cs) =>
    let st0 := { st with messageDelay := startDelay delayF st.messageDelay }
    let st1 := closeExistingWhatsAppTabs env.reapEnv false st0
    match st1.browser with
    | none =>
      let r0 := initBrowser env.launchFails now st1
      if r0.1 then
        let r := runContacts env.sendEnvs env.interf now (c :: cs) 0 ⟨0, 0, r0.2, [], []⟩
        (.ok r.success r.fail r.st.messageDelay, r.st, ⟨r.attempted, r.delays, true, true⟩)
      else (.serverError, r0.2, ⟨[], [], true, true⟩)
    | some _ =>
      let r := runContacts env.sendEnvs env.interf now (c :: cs) 0 ⟨0, 0, st1, [], []⟩
      (.ok r.success r.fail r.st.messageDelay, r.st, ⟨r.attempted, r.delays, true, false⟩)

/-! ## Init endpoint: `POST /api/init-whatsapp` (server.js lines 419-455) -/

/-- Environment for one init request. -/
structure InitEnv where
  reapEnv : ReapEnv
  launchFails : Bool
  newPageFails : Bool
  gotoFails : Bool
deriving DecidableEq

/-- Opening the primary surface (lines 430-439): `browser.newPage()` plus
`page.goto(root)`.  Either throw reaches the endpoint catch, which sets
`active := false` (line 448) and responds 500 - note it does not clear
`activeTabs`.  On success the session records exactly the primary URL. -/
def openPrimary (env : InitEnv) (now : Nat) (st : ServerState) : EndpointResult × ServerState :=
  match st.browser with
  | none =>
    (.err, { st with session := { st.session with active := false } })
  | some b =>
    if env.newPageFails then
      (.err, { st with session := { st.session with active := false } })
    else if env.gotoFails then
      (.err, { st with browser := some { b with pages := b.pages ++ ["about:blank"] },
                       session := { st.session with active := false } })
    else
      (.ok, { st with browser := some { b with pages := b.pages ++ [waRootUrl] },
                      session := { st.session with activeTabs := [waRootUrl],
                                                   active := true,
                                                   lastActivity := some now } })

/-- `POST /api/init-whatsapp`: force-reap, lazily launch the browser if
missing (a launch failure responds 500 with `active := false`), then open
the primary surface. -/
def initWhatsApp (env : InitEnv) (now : Nat) (st : ServerState) : EndpointResult × ServerState :=
  let st1 := closeExistingWhatsAppTabs env.reapEnv true st
  match st1.browser with
  | none =>
    let r0 := initBrowser env.launchFails now st1
    if r0.1 then openPrimary env now r0.2
    else (.err, { r0.2 with session := { r0.2.session with active := false } })
  | some _ => openPrimary env now st1

/-! ## Reference definitions used by the amended claims -/

/-- The session invariant of the spec:
`active == (openSurfaces is non-empty)` on the session record. -/
def sessionInv (s : SessionState) : Prop :=
  s.active = true ↔ s.activeTabs ≠ []

instance (s : SessionState) : Decidable (sessionInv s) := by
  unfold sessionInv; infer_instance

/-- The inter-message delays the loop performs, stated from the amended
claim: one delay after every contact except the last, each using the
`messageDelay` value current when the delay is taken, i.e. after the
update-delay interference of the iterations up to and including this one. -/
def delayList (interf : Nat → Option Int) (d : Int) (i : Nat) : List Contact → List Int
  | [] => []
  | [_] => []
  | _ :: c2 :: rest =>
    applyInterf (interf i) d :: delayList interf (applyInterf (interf i) d) (i + 1) (c2 :: rest)

/-- The boolean one Send Executor run returns when a browser handle exists,
as a function of its environment alone: true exactly when the sent path
completes. -/
def sendOutcomeOf (e : SendEnv) : Bool :=
  !e.newPageFails && !e.gotoFails && e.sendButtonAppears && !e.clickSendFails && !e.closeFails

/-- Reference failure count, stated from the claim: each blank recipient
increments the failure count by one (without a send), and each attempted
send that does not settle Sent increments it by one. -/
def failTally (se : Nat → SendEnv) : Nat → List Contact → Nat
  | _, [] => 0
  | i, c :: rest =>
    (if blankContact c then 1 else if sendOutcomeOf (se i) then 0 else 1)
      + failTally se (i + 1) rest

/-- Reference success count: one per attempted send that settles Sent;
blank recipients contribute nothing. -/
def succTally (se : Nat → SendEnv) : Nat → List Contact → Nat
  | _, [] => 0
  | i, c :: rest =>
    (if blankContact c then 0 else if sendOutcomeOf (se i) then 1 else 0)
      + succTally se (i + 1) rest

/-! ## Concrete fixtures -/

/-- A reaper/browser environment in which nothing fails. -/
def quietReap : ReapEnv := ⟨false, false, []⟩

/-- A send environment in which no browser call fails and neither UI
affordance appears (the probe exhausts and returns `false`). -/
def idleSendEnv : SendEnv := ⟨false, false, false, false, false, false, false, false⟩

/-- A send environment representing the Rejected scenario: the Send button
never appears and the invalid-recipient dialog is dismissed via the first
selector strategy. -/
def rejectedSendEnv : SendEnv := ⟨false, false, false, false, true, false, false, false⟩

/-- A send environment representing a technical failure: navigation to the
deep link times out. -/
def gotoFailSendEnv : SendEnv := ⟨false, true, false, false, false, false, false, false⟩

/-- A send environment for the happy path: Send button appears, click and
close succeed. -/
def happySendEnv : SendEnv := ⟨false, false, true, false, false, false, false, false⟩

/-- A batch environment in which nothing fails and every send succeeds. -/
def calmBatchEnv : BatchEnv :=
  ⟨quietReap, false, fun _ => happySendEnv, fun _ => none⟩

/-- A state with an initialized browser showing the primary surface. -/
def readyState : ServerState :=
  { browser := some { id := 0, pages := [waRootUrl] }
    session := { initDone := true, active := true, lastActivity := some 0,
                 activeTabs := [waRootUrl] }
    messageDelay := 5000
    closes := []
    nextId := 1 }

/-- A contact with both fields present. -/
def okContact : Contact := { phone := some "1", message := some "x" }

/-- A contact whose phone is blank. -/
def noPhoneContact : Contact := { phone := some "", message := some "x" }

/-- Default contact used for positional lookup in statements. -/
def dfltContact : Contact := { phone := none, message := none }

/-- A batch environment whose lazy browser launch fails. -/
def failBatchEnv : BatchEnv := ⟨quietReap, true, fun _ => happySendEnv, fun _ => none⟩

/-- A batch environment in which an `/api/update-delay` request for 2000 ms
arrives during the first loop iteration. -/
def midBatchUpdateEnv : BatchEnv :=
  ⟨quietReap, false, fun _ => happySendEnv, fun i => if i = 0 then some 2000 else none⟩

/-- An init-endpoint environment against a dead browser: the pre-close
enumeration throws and so does `browser.newPage()`. -/
def brokenInitEnv : InitEnv := ⟨⟨true, false, []⟩, false, true, false⟩

/-! ## Helper lemmas: the Send Executor invoked from the loop -/

theorem sendWhatsAppMessage_sent_eq (e : SendEnv) (p m : String) (ps : List String) :
    (sendWhatsAppMessage e p m ps).sent = sendOutcomeOf e := by
  rcases e with ⟨a, b, c, d, e2, f, g, h⟩
  cases a <;> cases b <;> cases c <;> cases d <;> cases e2 <;> cases f <;> cases g <;>
    cases h <;> rfl

theorem doSend_browser_isSome (e : SendEnv) (p m : String) (st : ServerState) :
    (doSend e p m st).2.browser.isSome = st.browser.isSome := by
  cases hb : st.browser <;> simp [doSend, hb]

theorem doSend_sent (e : SendEnv) (p m : String) (st : ServerState)
    (h : st.browser.isSome = true) :
    (doSend e p m st).1 = sendOutcomeOf e := by
  cases hb : st.browser with
  | none => rw [hb] at h; simp at h
  | some b => simp [doSend, hb, sendWhatsAppMessage_sent_eq]

theorem doSend_messageDelay (e : SendEnv) (p m : String) (st : ServerState) :
    (doSend e p m st).2.messageDelay = st.messageDelay := by
  unfold doSend; cases st.browser <;> rfl

theorem doSend_session (e : SendEnv) (p m : String) (st : ServerState) :
    (doSend e p m st).2.session = st.session := by
  unfold doSend; cases st.browser <;> rfl

/-! ## Helper lemmas: one loop iteration -/

theorem stepItem_counts (e : SendEnv) (u : Option Int) (now : Nat) (c : Contact)
    (i : Nat) (l : Bool) (acc : LoopAcc) :
    (stepItem e u now c i l acc).success + (stepItem e u now c i l acc).fail
      = acc.success + acc.fail + 1 := by
  unfold stepItem
  by_cases hb : blankContact c
  · simp [hb]; omega
  · cases hres : (doSend e (c.phone.getD "") (c.message.getD "") acc.st).1 <;>
      cases l <;> simp [hb, hres] <;> omega

theorem stepItem_attempted (e : SendEnv) (u : Option Int) (now : Nat) (c : Contact)
    (i : Nat) (l : Bool) (acc : LoopAcc) :
    (stepItem e u now c i l acc).attempted
      = if blankContact c then acc.attempted else acc.attempted ++ [i] := by
  unfold stepItem
  by_cases hb : blankContact c
  · simp [hb]
  · cases hres : (doSend e (c.phone.getD "") (c.message.getD "") acc.st).1 <;>
      cases l <;> simp [hb, hres]

theorem stepItem_messageDelay (e : SendEnv) (u : Option Int) (now : Nat) (c : Contact)
    (i : Nat) (l : Bool) (acc : LoopAcc) :
    (stepItem e u now c i l acc).st.messageDelay
      = if blankContact c then acc.st.messageDelay
        else applyInterf u acc.st.messageDelay := by
  unfold stepItem
  by_cases hb : blankContact c
  · simp [hb]
  · cases hres : (doSend e (c.phone.getD "") (c.message.getD "") acc.st).1 <;>
      cases l <;>
      simp [hb, hres, doSend_messageDelay]

theorem stepItem_delays (e : SendEnv) (u : Option Int) (now : Nat) (c : Contact)
    (i : Nat) (l : Bool) (acc : LoopAcc) :
    (stepItem e u now c i l acc).delays
      = if blankContact c || l then acc.delays
        else acc.delays ++ [applyInterf u acc.st.messageDelay] := by
  unfold stepItem
  by_cases hb : blankContact c
  · simp [hb]
  · cases hres : (doSend e (c.phone.getD "") (c.message.getD "") acc.st).1 <;>
      cases l <;>
      simp [hb, hres, doSend_messageDelay]

theorem stepItem_active (e : SendEnv) (u : Option Int) (now : Nat) (c : Contact)
    (i : Nat) (l : Bool) (acc : LoopAcc) :
    (stepItem e u now c i l acc).st.session.active = acc.st.session.active := by
  unfold stepItem
  by_cases hb : blankContact c
  · simp [hb]
  · cases hres : (doSend e (c.phone.getD "") (c.message.getD "") acc.st).1 <;>
      cases l <;>
      simp [hb, hres, doSend_session]

theorem stepItem_activeTabs (e : SendEnv) (u : Option Int) (now : Nat) (c : Contact)
    (i : Nat) (l : Bool) (acc : LoopAcc) :
    (stepItem e u now c i l acc).st.session.activeTabs = acc.st.session.activeTabs := by
  unfold stepItem
  by_cases hb : blankContact c
  · simp [hb]
  · cases hres : (doSend e (c.phone.getD "") (c.message.getD "") acc.st).1 <;>
      cases l <;>
      simp [hb, hres, doSend_session]

theorem stepItem_browser_isSome (e : SendEnv) (u : Option Int) (now : Nat) (c : Contact)
    (i : Nat) (l : Bool) (acc : LoopAcc) :
    (stepItem e u now c i l acc).st.browser.isSome = acc.st.browser.isSome := by
  unfold stepItem
  by_cases hb : blankContact c
  · simp [hb]
  · cases hres : (doSend e (c.phone.getD "") (c.message.getD "") acc.st).1 <;>
      cases l <;>
      simp [hb, hres, doSend_browser_isSome]

theorem stepItem_success_fail (e : SendEnv) (u : Option Int) (now : Nat) (c : Contact)
    (i : Nat) (l : Bool) (acc : LoopAcc) (h : acc.st.browser.isSome = true) :
    (stepItem e u now c i l acc).success
      = acc.success + (if blankContact c then 0 else if sendOutcomeOf e then 1 else 0)
    ∧ (stepItem e u now c i l acc).fail
      = acc.fail + (if blankContact c then 1 else if sendOutcomeOf e then 0 else 1) := by
  unfold stepItem
  by_cases hb : blankContact c
  · simp [hb]
  · have hsent : (doSend e (c.phone.getD "") (c.message.getD "") acc.st).1
        = sendOutcomeOf e := doSend_sent e _ _ acc.st h
    cases hs : sendOutcomeOf e <;>
      rw [hs] at hsent <;>
      cases l <;>
      simp [hb, hsent, hs]

/-! ## Helper lemmas: the whole contact loop -/

theorem runContacts_counts (se : Nat → SendEnv) (interf : Nat → Option Int) (now : Nat) :
    ∀ (cs : List Contact) (i : Nat) (acc : LoopAcc),
      (runContacts se interf now cs i acc).success
        + (runContacts se interf now cs i acc).fail
        = acc.success + acc.fail + cs.length
  | [], i, acc => by simp [runContacts]
  | c :: rest, i, acc => by
    rw [runContacts, runContacts_counts se interf now rest, stepItem_counts]
    simp; omega

theorem runContacts_attempted (se : Nat → SendEnv) (interf : Nat → Option Int) (now : Nat) :
    ∀ (cs : List Contact) (i : Nat) (acc : LoopAcc) (j : Nat),
      j ∈ (runContacts se interf now cs i acc).attempted →
      j ∈ acc.attempted
        ∨ ∃ k, k < cs.length ∧ j = i + k ∧ blankContact (cs.getD k dfltContact) = false
  | [], i, acc, j => by simp [runContacts]
  | c :: rest, i, acc, j => by
    rw [runContacts]
    intro hj
    rcases runContacts_attempted se interf now rest (i + 1) _ j hj with hmem | ⟨k, hk, hjk, hblank⟩
    · rw [stepItem_attempted] at hmem
      by_cases hb : blankContact c
      · rw [if_pos hb] at hmem; exact Or.inl hmem
      · rw [if_neg hb] at hmem
        rcases List.mem_append.mp hmem with h | h
        · exact Or.inl h
        · refine Or.inr ⟨0, by simp, ?_, ?_⟩
          · simpa using List.mem_singleton.mp h
          · simpa using eq_false_of_ne_true hb
    · refine Or.inr ⟨k + 1, by simpa using hk, by omega, ?_⟩
      simpa using hblank

theorem runContacts_delays_len (se : Nat → SendEnv) (interf : Nat → Option Int) (now : Nat) :
    ∀ (cs : List Contact) (i : Nat) (acc : LoopAcc),
      (runContacts se interf now cs i acc).delays.length
        = acc.delays.length + cs.dropLast.countP (fun c => !blankContact c)
  | [], i, acc => by simp [runContacts]
  | [c], i, acc => by
    rw [runContacts, runContacts, stepItem_delays]
    by_cases hb : blankContact c <;> simp [hb]
  | c :: c2 :: rest, i, acc => by
    rw [runContacts, runContacts_delays_len se interf now (c2 :: rest), stepItem_delays]
    rw [List.dropLast_cons₂, List.countP_cons]
    by_cases hb : blankContact c
    · simp [hb]; try omega
    · simp [hb]; try omega

theorem runContacts_delays_const (se : Nat → SendEnv) (interf : Nat → Option Int)
    (now : Nat) (hI : ∀ j, interf j = none) :
    ∀ (cs : List Contact) (i : Nat) (acc : LoopAcc) (d : Int),
      d ∈ (runContacts se interf now cs i acc).delays →
      d ∈ acc.delays ∨ d = acc.st.messageDelay
  | [], i, acc, d => by rw [runContacts]; exact fun h => Or.inl h
  | c :: rest, i, acc, d => by
    rw [runContacts]
    intro hd
    rcases runContacts_delays_const se interf now hI rest (i + 1) _ d hd with hmem | heq
    · rw [stepItem_delays, hI i] at hmem
      by_cases hb : blankContact c
      · simp [hb] at hmem; exact Or.inl hmem
      · cases hl : rest.isEmpty
        · simp [hb, hl, applyInterf] at hmem
          rcases hmem with h | h
          · exact Or.inl h
          · exact Or.inr h
        · simp [hb, hl] at hmem; exact Or.inl hmem
    · rw [stepItem_messageDelay, hI i] at heq
      by_cases hb : blankContact c
      · simp [hb] at heq; exact Or.inr heq
      · simp [hb, applyInterf] at heq; exact Or.inr heq

theorem runContacts_delayList (se : Nat → SendEnv) (interf : Nat → Option Int) (now : Nat) :
    ∀ (cs : List Contact) (i : Nat) (acc : LoopAcc),
      (∀ c ∈ cs, blankContact c = false) →
      (runContacts se interf now cs i acc).delays
        = acc.delays ++ delayList interf acc.st.messageDelay i cs
  | [], i, acc, _ => by simp [runContacts, delayList]
  | [c], i, acc, hcs => by
    have hb : blankContact c = false := hcs c (by simp)
    rw [runContacts, runContacts, stepItem_delays]
    simp [hb, delayList]
  | c :: c2 :: rest, i, acc, hcs => by
    have hb : blankContact c = false := hcs c (by simp)
    have ih := runContacts_delayList se interf now (c2 :: rest) (i + 1)
      (stepItem (se i) (interf i) now c i (c2 :: rest).isEmpty acc)
      (fun x hx => hcs x (List.mem_cons_of_mem c hx))
    rw [runContacts, ih, stepItem_delays, stepItem_messageDelay]
    simp [hb, delayList]

theorem runContacts_active (se : Nat → SendEnv) (interf : Nat → Option Int) (now : Nat) :
    ∀ (cs : List Contact) (i : Nat) (acc : LoopAcc),
      (runContacts se interf now cs i acc).st.session.active = acc.st.session.active
  | [], i, acc => by simp [runContacts]
  | c :: rest, i, acc => by
    rw [runContacts, runContacts_active se interf now rest, stepItem_active]

theorem runContacts_activeTabs (se : Nat → SendEnv) (interf : Nat → Option Int) (now : Nat) :
    ∀ (cs : List Contact) (i : Nat) (acc : LoopAcc),
      (runContacts se interf now cs i acc).st.session.activeTabs
        = acc.st.session.activeTabs
  | [], i, acc => by simp [runContacts]
  | c :: rest, i, acc => by
    rw [runContacts, runContacts_activeTabs se interf now rest, stepItem_activeTabs]

theorem runContacts_tallies (se : Nat → SendEnv) (interf : Nat → Option Int) (now : Nat) :
    ∀ (cs : List Contact) (i : Nat) (acc : LoopAcc),
      acc.st.browser.isSome = true →
      (runContacts se interf now cs i acc).success = acc.success + succTally se i cs
      ∧ (runContacts se interf now cs i acc).fail = acc.fail + failTally se i cs
  | [], i, acc, _ => by simp [runContacts, succTally, failTally]
  | c :: rest, i, acc, h => by
    rw [runContacts]
    have hstep := stepItem_success_fail (se i) (interf i) now c i rest.isEmpty acc h
    have hsome : (stepItem (se i) (interf i) now c i rest.isEmpty acc).st.browser.isSome
        = true := by
      rw [stepItem_browser_isSome]; exact h
    have ih := runContacts_tallies se interf now rest (i + 1) _ hsome
    rw [succTally, failTally]
    exact ⟨by rw [ih.1, hstep.1]; omega, by rw [ih.2, hstep.2]; omega⟩

theorem countP_blank_le_failTally (se : Nat → SendEnv) :
    ∀ (i : Nat) (cs : List Contact),
      cs.countP blankContact ≤ failTally se i cs
  | _, [] => Nat.le_refl 0
  | i, c :: rest => by
    rw [failTally, List.countP_cons]
    have ih := countP_blank_le_failTally se (i + 1) rest
    by_cases hb : blankContact c <;> simp [hb] <;> omega

/-! ## Helper lemmas: reaper and lifecycle -/

theorem reap_inv (env : ReapEnv) (force : Bool) (st : ServerState)
    (h : sessionInv st.session) :
    sessionInv (closeExistingWhatsAppTabs env force st).session := by
  unfold closeExistingWhatsAppTabs
  cases st.browser with
  | none => exact h
  | some b =>
    by_cases hp : env.pagesFails
    · simpa [hp] using h
    · cases force
      · by_cases hp2 : env.pagesFails2
        · simpa [hp, hp2] using h
        · simp only [hp, hp2]
          simp [sessionInv, List.length_pos]
      · simp [hp, sessionInv]

theorem reap_browser_isSome (env : ReapEnv) (force : Bool) (st : ServerState) :
    (closeExistingWhatsAppTabs env force st).browser.isSome = st.browser.isSome := by
  cases hb : st.browser with
  | none => simp [closeExistingWhatsAppTabs, hb]
  | some b =>
    by_cases hp : env.pagesFails
    · simp [closeExistingWhatsAppTabs, hb, hp]
    · cases force
      · by_cases hp2 : env.pagesFails2 <;> simp [closeExistingWhatsAppTabs, hb, hp, hp2]
      · simp [closeExistingWhatsAppTabs, hb, hp]

theorem reap_browser_none (env : ReapEnv) (force : Bool) (st : ServerState) :
    (closeExistingWhatsAppTabs env force st).browser = none ↔ st.browser = none := by
  have hs := reap_browser_isSome env force st
  constructor
  · intro h
    rw [h] at hs
    cases ho : st.browser
    · rfl
    · rw [ho] at hs; simp at hs
  · intro h
    rw [h] at hs
    cases ho : (closeExistingWhatsAppTabs env force st).browser
    · rfl
    · rw [ho] at hs; simp at hs

theorem reap_messageDelay (env : ReapEnv) (force : Bool) (st : ServerState) :
    (closeExistingWhatsAppTabs env force st).messageDelay = st.messageDelay := by
  cases hb : st.browser with
  | none => simp [closeExistingWhatsAppTabs, hb]
  | some b =>
    by_cases hp : env.pagesFails
    · simp [closeExistingWhatsAppTabs, hb, hp]
    · cases force
      · by_cases hp2 : env.pagesFails2 <;> simp [closeExistingWhatsAppTabs, hb, hp, hp2]
      · simp [closeExistingWhatsAppTabs, hb, hp]

theorem initBrowser_frame (lf : Bool) (now : Nat) (st : ServerState) :
    (initBrowser lf now st).2.session.active = st.session.active
    ∧ (initBrowser lf now st).2.session.activeTabs = st.session.activeTabs
    ∧ (initBrowser lf now st).2.messageDelay = st.messageDelay := by
  unfold initBrowser
  cases lf <;> simp

/-- Shape of a non-empty batch request: with no browser and a failing
launch, the request settles on the 500 path with the post-`initBrowser`
state; otherwise the whole response is the result of the contact loop run
from some start state `st0` whose `messageDelay` is the batch-start value
and whose session satisfies the invariant whenever the input state did. -/
theorem sendMessages_shape (env : BatchEnv) (c : Contact) (cs : List Contact)
    (delayF : DelayField) (now : Nat) (st : ServerState) :
    (st.browser = none ∧ env.launchFails = true →
      sendMessages env (.arr (c :: cs)) delayF now st
        = (.serverError,
           (initBrowser true now (closeExistingWhatsAppTabs env.reapEnv false
             { st with messageDelay := startDelay delayF st.messageDelay })).2,
           ⟨[], [], true, true⟩))
    ∧ (¬(st.browser = none ∧ env.launchFails = true) →
      ∃ (st0 : ServerState) (lz : Bool),
        st0.messageDelay = startDelay delayF st.messageDelay
        ∧ st0.browser.isSome = true
        ∧ (sessionInv st.session → sessionInv st0.session)
        ∧ sendMessages env (.arr (c :: cs)) delayF now st
            = (.ok (runContacts env.sendEnvs env.interf now (c :: cs) 0
                      ⟨0, 0, st0, [], []⟩).success
                   (runContacts env.sendEnvs env.interf now (c :: cs) 0
                      ⟨0, 0, st0, [], []⟩).fail
                   (runContacts env.sendEnvs env.interf now (c :: cs) 0
                      ⟨0, 0, st0, [], []⟩).st.messageDelay,
               (runContacts env.sendEnvs env.interf now (c :: cs) 0
                      ⟨0, 0, st0, [], []⟩).st,
               ⟨(runContacts env.sendEnvs env.interf now (c :: cs) 0
                      ⟨0, 0, st0, [], []⟩).attempted,
                (runContacts env.sendEnvs env.interf now (c :: cs) 0
                      ⟨0, 0, st0, [], []⟩).delays, true, lz⟩)) := by
  have hifT : ∀ s : ServerState, (initBrowser true now s).1 = false := fun _ => rfl
  have hifF : ∀ s : ServerState, (initBrowser false now s).1 = true := fun _ => rfl
  constructor
  · rintro ⟨h1, h2⟩
    have hnone : (closeExistingWhatsAppTabs env.reapEnv false
        { st with messageDelay := startDelay delayF st.messageDelay }).browser = none :=
      (reap_browser_none env.reapEnv false _).mpr h1
    simp only [sendMessages, hnone, h2, hifT]
    simp
  · intro hn
    cases hb1 : (closeExistingWhatsAppTabs env.reapEnv false
        { st with messageDelay := startDelay delayF st.messageDelay }).browser with
    | some b =>
      refine ⟨closeExistingWhatsAppTabs env.reapEnv false
        { st with messageDelay := startDelay delayF st.messageDelay }, false, ?_, ?_, ?_, ?_⟩
      · rw [reap_messageDelay]
      · rw [hb1]; rfl
      · intro h
        exact reap_inv env.reapEnv false _ h
      · simp only [sendMessages, hb1]
    | none =>
      have h1 : st.browser = none :=
        (reap_browser_none env.reapEnv false
          { st with messageDelay := startDelay delayF st.messageDelay }).mp hb1
      have h2 : env.launchFails = false := by
        cases hlf : env.launchFails
        · rfl
        · exact absurd ⟨h1, hlf⟩ hn
      refine ⟨(initBrowser false now (closeExistingWhatsAppTabs env.reapEnv false
        { st with messageDelay := startDelay delayF st.messageDelay })).2, true, ?_, ?_, ?_, ?_⟩
      · rw [(initBrowser_frame false now _).2.2, reap_messageDelay]
      · rfl
      · intro h
        have h3 := reap_inv env.reapEnv false
          { st with messageDelay := startDelay delayF st.messageDelay } h
        unfold sessionInv
        rw [(initBrowser_frame false now _).1, (initBrowser_frame false now _).2.1]
        exact h3
      · simp only [sendMessages, hb1, h2, hifF]
        simp

/-! ## Claim C1 -/

/-- C1 counterexample: a Rejected run (Send button absent, invalid-number
dialog dismissed by the first selector strategy) and a Failed run
(navigation timeout) return the identical value `false`, so Rejected and
Failed are not distinguishable in the value `send` returns. -/
theorem c1_rejected_failed_indistinguishable :
    (sendWhatsAppMessage rejectedSendEnv "+62 812" "hi" [waRootUrl]).sent = false
    ∧ (sendWhatsAppMessage gotoFailSendEnv "+62 812" "hi" [waRootUrl]).sent = false :=
  ⟨rfl, rfl⟩

/-- C1 (amended): `sendWhatsAppMessage` returns a two-valued boolean, not a
tri-state: it returns `true` exactly when the whole sent path completes
(page opened, navigation succeeded, Send button found and clicked, page
closed); every Rejected and every Failed scenario returns the same value
`false`. -/
theorem c1_send_outcome_boolean (env : SendEnv) (p m : String) (ps : List String) :
    (sendWhatsAppMessage env p m ps).sent
      = (!env.newPageFails && !env.gotoFails && env.sendButtonAppears
          && !env.clickSendFails && !env.closeFails) := by
  rcases env with ⟨a, b, c, d, e, f, g, h⟩
  cases a <;> cases b <;> cases c <;> cases d <;> cases e <;> cases f <;> cases g <;>
    cases h <;> rfl

/-! ## Claim C2 -/

/-- C2 counterexample: when navigation to the deep link throws (timeout),
the ephemeral surface has been opened but no `page.close()` is ever
attempted - the outer catch returns `Failed` and leaks the page. -/
theorem c2_goto_exception_leaks_surface :
    (sendWhatsAppMessage gotoFailSendEnv "1" "x" [waRootUrl]).closeAttempts = 0
    ∧ (sendWhatsAppMessage gotoFailSendEnv "1" "x" [waRootUrl]).pages
        = [waRootUrl, "about:blank"]
    ∧ (sendWhatsAppMessage gotoFailSendEnv "1" "x" [waRootUrl]).sent = false :=
  ⟨rfl, rfl, rfl⟩

/-- C2 (amended): `send` never closes a pre-existing surface (in particular
the primary surface survives every run), and once navigation completes
without an exception a close of the ephemeral surface is attempted on every
settled outcome; but on an exception during page open or navigation no
close is attempted (the surface leaks, see the counterexample). -/
theorem c2_close_discipline (env : SendEnv) (p m : String) (ps : List String) :
    (∀ u ∈ ps, u ∈ (sendWhatsAppMessage env p m ps).pages)
    ∧ (env.newPageFails = false → env.gotoFails = false →
        1 ≤ (sendWhatsAppMessage env p m ps).closeAttempts) := by
  rcases env with ⟨a, b, c, d, e, f, g, h⟩
  constructor
  · intro u hu
    cases a <;> cases b <;> cases c <;> cases d <;> cases e <;> cases f <;> cases g <;>
      cases h <;>
      first
        | exact hu
        | exact List.mem_append_left _ hu
  · intro h1 h2
    subst h1; subst h2
    cases c <;> cases d <;> cases e <;> cases f <;> cases g <;> cases h <;>
      simp [sendWhatsAppMessage, okProbe, closeInTry]

/-- Witness for C2: the close-attempt bound and the survival of the primary
surface on concrete runs. -/
theorem c2_close_discipline_witness :
    1 ≤ (sendWhatsAppMessage rejectedSendEnv "1" "x" []).closeAttempts
    ∧ waRootUrl ∈ (sendWhatsAppMessage happySendEnv "1" "x" [waRootUrl]).pages :=
  ⟨(c2_close_discipline rejectedSendEnv "1" "x" []).2 rfl rfl,
   (c2_close_discipline happySendEnv "1" "x" [waRootUrl]).1 waRootUrl (by simp)⟩

/-! ## Claim C9 -/

/-- C9: a missing, non-array or empty `contacts` field is rejected with the
400 validation response before any effect: the whole server state (browser,
session record, `messageDelay` - even when a delay override was supplied)
is returned unchanged, no reap or lazy initialization is reached, no send
is attempted and no delay is performed. -/
theorem c9_invalid_request_no_effects (env : BatchEnv) (contacts : ContactsField)
    (delayF : DelayField) (now : Nat) (st : ServerState)
    (h : contacts = .missing ∨ contacts = .notArray ∨ contacts = .arr []) :
    sendMessages env contacts delayF now st
      = (.badRequest, st, ⟨[], [], false, false⟩) := by
  rcases h with h | h | h <;> subst h <;> rfl

/-- Witness for C9: a missing contacts field with a delay override of 2000
ms leaves the state (including `messageDelay = 5000`) untouched. -/
theorem c9_invalid_request_no_effects_witness :
    sendMessages calmBatchEnv .missing (.num 2000) 0 readyState
      = (.badRequest, readyState, ⟨[], [], false, false⟩) :=
  c9_invalid_request_no_effects calmBatchEnv .missing (.num 2000) 0 readyState (Or.inl rfl)

/-! ## Claim C10 -/

/-- C10: with no browser session, the reaper (either value of `forceClose`)
returns without raising and leaves the whole state unchanged, and the
`/api/close-whatsapp` control operation succeeds and mutates nothing. -/
theorem c10_reap_without_browser_noop (env : ReapEnv) (force : Bool) (st : ServerState)
    (h : st.browser = none) :
    closeExistingWhatsAppTabs env force st = st
    ∧ closeWhatsApp env st = (.ok, st) := by
  have h1 : ∀ f, closeExistingWhatsAppTabs env f st = st := by
    intro f; simp [closeExistingWhatsAppTabs, h]
  exact ⟨h1 force, by simp [closeWhatsApp, h1 true]⟩

/-- Witness for C10: the close endpoint on the start state. -/
theorem c10_reap_without_browser_noop_witness :
    closeExistingWhatsAppTabs quietReap true freshState = freshState
    ∧ closeWhatsApp quietReap freshState = (.ok, freshState) :=
  c10_reap_without_browser_noop quietReap true freshState rfl

/-! ## Claim C5 -/

/-- C5: `initBrowser` keeps at most one browser instance alive.  From any
well-formed state (every live instance is the one the handle references,
the handle id and all logged ids are below the id counter), two successive
successful `start()` calls close the instance created by the first call
exactly once, leave it dead, leave at most one live instance, and every
`start()` against an existing handle invokes its `close()` exactly once
before launching (the close log grows by exactly that id). -/
theorem c5_single_browser_instance (st : ServerState) (n1 n2 : Nat)
    (hwf1 : ∀ i, aliveInst st i → ∃ b, st.browser = some b ∧ b.id = i)
    (hwf2 : ∀ b, st.browser = some b → b.id < st.nextId)
    (hwf3 : ∀ i ∈ st.closes, i < st.nextId) :
    ((initBrowser false n2 (initBrowser false n1 st).2).2.closes.count st.nextId = 1)
    ∧ (∀ i j, aliveInst (initBrowser false n2 (initBrowser false n1 st).2).2 i →
        aliveInst (initBrowser false n2 (initBrowser false n1 st).2).2 j → i = j)
    ∧ ¬ aliveInst (initBrowser false n2 (initBrowser false n1 st).2).2 st.nextId
    ∧ (∀ b, st.browser = some b →
        (initBrowser false n1 st).2.closes = st.closes ++ [b.id]) := by
  have hnotmem : st.nextId ∉ st.closes := fun hmem => by
    exact absurd (hwf3 st.nextId hmem) (by omega)
  cases hbr : st.browser with
  | none =>
    have hclo : (initBrowser false n2 (initBrowser false n1 st).2).2.closes
        = st.closes ++ [st.nextId] := by
      simp [initBrowser, hbr]
    have hnid : (initBrowser false n2 (initBrowser false n1 st).2).2.nextId
        = st.nextId + 2 := by
      simp [initBrowser, hbr]
    have halive2 : ∀ k, aliveInst (initBrowser false n2 (initBrowser false n1 st).2).2 k
        ↔ (k < st.nextId + 2 ∧ k ∉ st.closes ∧ k ≠ st.nextId) := by
      intro k
      unfold aliveInst
      rw [hclo, hnid]
      simp [List.mem_append, not_or]
    have hdead : ∀ k, k < st.nextId → k ∈ st.closes := by
      intro k hk
      by_contra hni
      obtain ⟨b, hb, _⟩ := hwf1 k ⟨hk, hni⟩
      rw [hbr] at hb
      exact Option.noConfusion hb
    refine ⟨?_, ?_, ?_, ?_⟩
    · rw [hclo, List.count_append]
      rw [List.count_eq_zero.mpr hnotmem]
      simp
    · intro i j hi hj
      rw [halive2] at hi hj
      obtain ⟨hi1, hi2, hi3⟩ := hi
      obtain ⟨hj1, hj2, hj3⟩ := hj
      have : ¬ i < st.nextId := fun hlt => hi2 (hdead i hlt)
      have : ¬ j < st.nextId := fun hlt => hj2 (hdead j hlt)
      omega
    · intro hal
      rw [halive2] at hal
      exact hal.2.2 rfl
    · intro _ hb
      exact Option.noConfusion hb
  | some b0 =>
    have hb0 : b0.id < st.nextId := hwf2 b0 hbr
    have hclo : (initBrowser false n2 (initBrowser false n1 st).2).2.closes
        = (st.closes ++ [b0.id]) ++ [st.nextId] := by
      simp [initBrowser, hbr]
    have hnid : (initBrowser false n2 (initBrowser false n1 st).2).2.nextId
        = st.nextId + 2 := by
      simp [initBrowser, hbr]
    have halive2 : ∀ k, aliveInst (initBrowser false n2 (initBrowser false n1 st).2).2 k
        ↔ (k < st.nextId + 2 ∧ k ∉ st.closes ∧ k ≠ b0.id ∧ k ≠ st.nextId) := by
      intro k
      unfold aliveInst
      rw [hclo, hnid]
      simp [List.mem_append, not_or]
    refine ⟨?_, ?_, ?_, ?_⟩
    · rw [hclo, List.count_append, List.count_append]
      rw [List.count_eq_zero.mpr hnotmem]
      have hzero : List.count st.nextId [b0.id] = 0 :=
        List.count_eq_zero.mpr (by simp; omega)
      rw [hzero]
      simp
    · intro i j hi hj
      rw [halive2] at hi hj
      obtain ⟨hi1, hi2, hi3, hi4⟩ := hi
      obtain ⟨hj1, hj2, hj3, hj4⟩ := hj
      have hkey : ∀ k, k < st.nextId + 2 → k ∉ st.closes → k ≠ b0.id →
          k ≠ st.nextId → k = st.nextId + 1 := by
        intro k hk1 hk2 hkb hkn
        by_cases hlt : k < st.nextId
        · obtain ⟨b, hb, hbid⟩ := hwf1 k ⟨hlt, hk2⟩
          rw [hbr] at hb
          injection hb with hb
          exact absurd (hbid ▸ congrArg BrowserInst.id hb).symm hkb
        · omega
      have := hkey i hi1 hi2 hi3 hi4
      have := hkey j hj1 hj2 hj3 hj4
      omega
    · intro hal
      rw [halive2] at hal
      exact hal.2.2.2 rfl
    · intro b hb
      injection hb with hb
      subst hb
      simp [initBrowser, hbr]

/-- Witness for C5: two starts from the process start state close the first
instance (id 0) exactly once and leave it dead. -/
theorem c5_single_browser_instance_witness :
    ((initBrowser false 1 (initBrowser false 0 freshState).2).2.closes.count 0 = 1)
    ∧ ¬ aliveInst (initBrowser false 1 (initBrowser false 0 freshState).2).2 0 :=
  have h := c5_single_browser_instance freshState 0 1
    (fun i hi => absurd hi.1 (Nat.not_lt_zero i))
    (fun _b hb => Option.noConfusion hb)
    (fun i hi => absurd hi (List.not_mem_nil i))
  ⟨h.1, h.2.2.1⟩

/-! ## Claim C6 -/

/-- C6: a non-empty batch request reaches the 500 exception path exactly
when no browser session exists and the lazy launch fails; on every other
run - whatever the per-recipient or per-surface failures - it returns the
200 response carrying `successCount` and `failCount` with
`successCount + failCount` equal to the number of recipients, even when
every item failed. -/
theorem c6_exception_propagation (env : BatchEnv) (c : Contact) (cs : List Contact)
    (delayF : DelayField) (now : Nat) (st : ServerState) :
    ((sendMessages env (.arr (c :: cs)) delayF now st).1 = .serverError
      ↔ (st.browser = none ∧ env.launchFails = true))
    ∧ (¬(st.browser = none ∧ env.launchFails = true) →
      ∃ s f d, (sendMessages env (.arr (c :: cs)) delayF now st).1 = .ok s f d
        ∧ s + f = (c :: cs).length) := by
  obtain ⟨herr, hok⟩ := sendMessages_shape env c cs delayF now st
  have hcount : ∀ st0 : ServerState,
      (runContacts env.sendEnvs env.interf now (c :: cs) 0 ⟨0, 0, st0, [], []⟩).success
        + (runContacts env.sendEnvs env.interf now (c :: cs) 0 ⟨0, 0, st0, [], []⟩).fail
        = (c :: cs).length := by
    intro st0
    simpa using runContacts_counts env.sendEnvs env.interf now (c :: cs) 0 ⟨0, 0, st0, [], []⟩
  constructor
  · constructor
    · intro hse
      by_contra hn
      obtain ⟨st0, lz, _, _, _, heq⟩ := hok hn
      rw [heq] at hse
      exact BatchResponse.noConfusion hse
    · intro h
      rw [herr h]
  · intro hn
    obtain ⟨st0, lz, _, _, _, heq⟩ := hok hn
    exact ⟨_, _, _, by rw [heq], hcount st0⟩

/-- Witness for C6: with no browser and a failing launch the batch request
responds with the 500 path. -/
theorem c6_exception_propagation_witness :
    (sendMessages failBatchEnv (.arr [okContact]) .missing 0 freshState).1 = .serverError :=
  (c6_exception_propagation failBatchEnv okContact [] .missing 0 freshState).1.mpr ⟨rfl, rfl⟩

/-! ## Claim C7 -/

/-- C7: in every batch that runs (no launch failure), each recipient with a
blank or absent phone or message increments `failCount` without the Send
Executor being invoked at its index (so no surface is opened and no
navigation occurs for it): the returned `failCount` equals `failTally` -
one unit per blank recipient plus one per attempted send not settling Sent
- so `failCount` is at least the number of blank recipients, the returned
`successCount` equals `succTally` (blank recipients contribute nothing to
it), and `successCount + failCount` equals the total number of
recipients. -/
theorem c7_blank_recipients_skipped (env : BatchEnv) (c : Contact) (cs : List Contact)
    (delayF : DelayField) (now : Nat) (st : ServerState)
    (hn : ¬(st.browser = none ∧ env.launchFails = true)) :
    (∃ s f d, (sendMessages env (.arr (c :: cs)) delayF now st).1 = .ok s f d
      ∧ s + f = (c :: cs).length
      ∧ s = succTally env.sendEnvs 0 (c :: cs)
      ∧ f = failTally env.sendEnvs 0 (c :: cs)
      ∧ (c :: cs).countP blankContact ≤ f)
    ∧ (∀ k, k < (c :: cs).length →
        blankContact ((c :: cs).getD k dfltContact) = true →
        k ∉ (sendMessages env (.arr (c :: cs)) delayF now st).2.2.attempted) := by
  obtain ⟨_, hok⟩ := sendMessages_shape env c cs delayF now st
  obtain ⟨st0, lz, _, hsome, _, heq⟩ := hok hn
  have htal := runContacts_tallies env.sendEnvs env.interf now (c :: cs) 0
    ⟨0, 0, st0, [], []⟩ hsome
  constructor
  · refine ⟨_, _, _, by rw [heq], ?_, ?_, ?_, ?_⟩
    · simpa using runContacts_counts env.sendEnvs env.interf now (c :: cs) 0 ⟨0, 0, st0, [], []⟩
    · simpa using htal.1
    · simpa using htal.2
    · have hle := countP_blank_le_failTally env.sendEnvs 0 (c :: cs)
      have hf := htal.2
      simp only at hf
      omega
  · intro k hk hblank hmem
    rw [heq] at hmem
    simp only at hmem
    rcases runContacts_attempted env.sendEnvs env.interf now (c :: cs) 0
        ⟨0, 0, st0, [], []⟩ k hmem with h | ⟨k2, hk2, hkk, hbl⟩
    · exact List.not_mem_nil k h
    · have : k2 = k := by omega
      subst this
      rw [hblank] at hbl
      exact Bool.noConfusion hbl

/-- Witness for C7: the blank-phone recipient at index 1 is never attempted. -/
theorem c7_blank_recipients_skipped_witness :
    1 ∉ (sendMessages calmBatchEnv (.arr [okContact, noPhoneContact]) .missing 0
          readyState).2.2.attempted :=
  (c7_blank_recipients_skipped calmBatchEnv okContact [noPhoneContact] .missing 0 readyState
    (by decide)).2 1 (by decide) (by decide)

/-! ## Claim C8 -/

/-- C8 counterexample: a batch of two recipients whose first has a blank
phone performs zero inter-message delays, not N-1 = 1: the blank-contact
`continue` skips the delay of its iteration. -/
theorem c8_blank_contact_skips_delay :
    (sendMessages calmBatchEnv (.arr [noPhoneContact, okContact]) .missing 0
        readyState).2.2.delays.length = 0
    ∧ ([noPhoneContact, okContact] : List Contact).length - 1 = 1 := by
  constructor
  · rfl
  · rfl

/-- C8 (amended): the loop performs one inter-message delay after each
recipient except the last whose phone and message are both present: the
number of delays equals the number of non-blank recipients among all but
the last (so exactly N-1 delays when no recipient is blank, and zero
delays for N ≤ 1; a blank recipient skips its delay via `continue`). -/
theorem c8_delay_count (env : BatchEnv) (c : Contact) (cs : List Contact)
    (delayF : DelayField) (now : Nat) (st : ServerState)
    (hn : ¬(st.browser = none ∧ env.launchFails = true)) :
    (sendMessages env (.arr (c :: cs)) delayF now st).2.2.delays.length
      = (c :: cs).dropLast.countP (fun x => !blankContact x)
    ∧ (cs = [] → (sendMessages env (.arr (c :: cs)) delayF now st).2.2.delays = []) := by
  obtain ⟨_, hok⟩ := sendMessages_shape env c cs delayF now st
  obtain ⟨st0, lz, _, _, _, heq⟩ := hok hn
  have hlen := runContacts_delays_len env.sendEnvs env.interf now (c :: cs) 0
    ⟨0, 0, st0, [], []⟩
  constructor
  · rw [heq]
    simpa using hlen
  · intro hcs
    subst hcs
    rw [heq]
    simp only at hlen ⊢
    simp at hlen
    exact hlen

/-- Witness for C8: three non-blank recipients produce exactly two delays. -/
theorem c8_delay_count_witness :
    (sendMessages calmBatchEnv (.arr [okContact, okContact, okContact]) .missing 0
        readyState).2.2.delays.length
      = ([okContact, okContact, okContact] : List Contact).dropLast.countP
          (fun x => !blankContact x) :=
  (c8_delay_count calmBatchEnv okContact [okContact, okContact] .missing 0 readyState
    (by decide)).1

/-! ## Claim C3 -/

/-- C3 counterexample: the batch starts with `messageDelay = 5000` and no
override, yet an `/api/update-delay` request for 2000 ms arriving during
the first iteration makes the one inter-message delay of the batch 2000 ms
- the remainder of an in-flight batch does not use the value in effect at
the start of the batch. -/
theorem c3_midbatch_update_changes_delays :
    readyState.messageDelay = 5000
    ∧ (sendMessages midBatchUpdateEnv (.arr [okContact, okContact]) .missing 0
        readyState).2.2.delays = [2000] := by
  constructor
  · rfl
  · rfl

/-- C3 (amended): every inter-message delay uses the `messageDelay` value
current at the moment the delay is taken - the loop reads the shared value
fresh at each iteration.  With no mid-batch mutation every delay equals the
start-of-batch value, but an update-delay request during iteration `i`
changes the delays of the remainder of the batch, as characterized exactly
by `delayList`. -/
theorem c3_delay_read_fresh (env : BatchEnv) (c : Contact) (cs : List Contact)
    (delayF : DelayField) (now : Nat) (st : ServerState)
    (hn : ¬(st.browser = none ∧ env.launchFails = true)) :
    ((∀ j, env.interf j = none) →
      ∀ d ∈ (sendMessages env (.arr (c :: cs)) delayF now st).2.2.delays,
        d = startDelay delayF st.messageDelay)
    ∧ ((∀ x ∈ c :: cs, blankContact x = false) →
      (sendMessages env (.arr (c :: cs)) delayF now st).2.2.delays
        = delayList env.interf (startDelay delayF st.messageDelay) 0 (c :: cs)) := by
  obtain ⟨_, hok⟩ := sendMessages_shape env c cs delayF now st
  obtain ⟨st0, lz, hmd, _, _, heq⟩ := hok hn
  constructor
  · intro hI d hd
    rw [heq] at hd
    simp only at hd
    rcases runContacts_delays_const env.sendEnvs env.interf now hI (c :: cs) 0
        ⟨0, 0, st0, [], []⟩ d hd with h | h
    · exact absurd h (List.not_mem_nil d)
    · rw [h]
      exact hmd
  · intro hbl
    rw [heq]
    simp only
    rw [runContacts_delayList env.sendEnvs env.interf now (c :: cs) 0 ⟨0, 0, st0, [], []⟩ hbl]
    simp only [List.nil_append]
    rw [hmd]

/-- Witness for C3: a quiet batch (no mid-batch update) yields exactly the
delays `delayList` predicts from the start value 5000. -/
theorem c3_delay_read_fresh_witness :
    (sendMessages calmBatchEnv (.arr [okContact, okContact]) .missing 0
        readyState).2.2.delays
      = delayList calmBatchEnv.interf (startDelay .missing readyState.messageDelay) 0
          [okContact, okContact] :=
  (c3_delay_read_fresh calmBatchEnv okContact [okContact] .missing 0 readyState
    (by decide)).2 (by decide)

/-! ## Claim C4 -/

theorem status_inv (env : StatusEnv) (st : ServerState) (h : sessionInv st.session) :
    sessionInv (whatsappStatus env st).2.session := by
  cases hb : st.browser with
  | none => simpa [whatsappStatus, hb] using h
  | some b =>
    by_cases hp : env.pagesFails
    · simpa [whatsappStatus, hb, hp] using h
    · simp [whatsappStatus, hb, hp, sessionInv, List.length_pos]

theorem openPrimary_ok_inv (env : InitEnv) (now : Nat) (st : ServerState)
    (h : (openPrimary env now st).1 = .ok) :
    sessionInv (openPrimary env now st).2.session := by
  cases hb : st.browser with
  | none => simp [openPrimary, hb] at h
  | some b =>
    by_cases hn : env.newPageFails
    · simp [openPrimary, hb, hn] at h
    · by_cases hg : env.gotoFails
      · simp [openPrimary, hb, hn, hg] at h
      · simp [openPrimary, hb, hn, hg, sessionInv]

/-- C4 counterexample: against a dead browser (the pre-close enumeration
throws, then `browser.newPage()` throws) the init endpoint error path sets
`active := false` without clearing `activeTabs`, leaving
`active = false` with a non-empty `openSurfaces` - the invariant breaks. -/
theorem c4_initialize_error_breaks_invariant :
    (initWhatsApp brokenInitEnv 0 readyState).2.session.active = false
    ∧ (initWhatsApp brokenInitEnv 0 readyState).2.session.activeTabs = [waRootUrl]
    ∧ ¬ sessionInv (initWhatsApp brokenInitEnv 0 readyState).2.session :=
  ⟨rfl, rfl, by decide⟩

/-- C4 (amended): the invariant `active == (openSurfaces non-empty)` is
preserved by the reaper (both modes, any failure pattern), by the status
recomputation, by `initBrowser`, and by the batch endpoint on all its
paths; it is established by every successful run of the init endpoint; and
`initialized` can be true while `active` is false (after `initBrowser` on
the start state).  The init endpoint error path is excluded: it can break
the invariant (see the counterexample). -/
theorem c4_session_invariant :
    (∀ env force st, sessionInv st.session →
      sessionInv (closeExistingWhatsAppTabs env force st).session)
    ∧ (∀ env st, sessionInv st.session → sessionInv (whatsappStatus env st).2.session)
    ∧ (∀ lf now st, sessionInv st.session → sessionInv (initBrowser lf now st).2.session)
    ∧ (∀ env now st, (initWhatsApp env now st).1 = .ok →
      sessionInv (initWhatsApp env now st).2.session)
    ∧ (∀ env cf df now st, sessionInv st.session →
      sessionInv (sendMessages env cf df now st).2.1.session)
    ∧ ((initBrowser false 0 freshState).2.session.initDone = true
      ∧ (initBrowser false 0 freshState).2.session.active = false) := by
  refine ⟨reap_inv, status_inv, ?_, ?_, ?_, rfl, rfl⟩
  · intro lf now st h
    unfold sessionInv
    rw [(initBrowser_frame lf now st).1, (initBrowser_frame lf now st).2.1]
    exact h
  · intro env now st hok
    cases hb1 : (closeExistingWhatsAppTabs env.reapEnv true st).browser with
    | some b =>
      have he : initWhatsApp env now st
          = openPrimary env now (closeExistingWhatsAppTabs env.reapEnv true st) := by
        simp only [initWhatsApp, hb1]
      rw [he] at hok ⊢
      exact openPrimary_ok_inv env now _ hok
    | none =>
      cases hlf : env.launchFails with
      | false =>
        have hifF : (initBrowser false now
            (closeExistingWhatsAppTabs env.reapEnv true st)).1 = true := rfl
        have he : initWhatsApp env now st
            = openPrimary env now (initBrowser false now
                (closeExistingWhatsAppTabs env.reapEnv true st)).2 := by
          simp only [initWhatsApp, hb1, hlf, hifF, if_true]
        rw [he] at hok ⊢
        exact openPrimary_ok_inv env now _ hok
      | true =>
        have hifT : (initBrowser true now
            (closeExistingWhatsAppTabs env.reapEnv true st)).1 = false := rfl
        have he : (initWhatsApp env now st).1 = .err := by
          simp only [initWhatsApp, hb1, hlf, hifT]
          simp
        rw [he] at hok
        exact EndpointResult.noConfusion hok
  · intro env cf df now st h
    cases cf with
    | missing => exact h
    | notArray => exact h
    | arr cs =>
      cases cs with
      | nil => exact h
      | cons c cs2 =>
        by_cases hn : st.browser = none ∧ env.launchFails = true
        · obtain ⟨herr, _⟩ := sendMessages_shape env c cs2 df now st
          rw [herr hn]
          simp only
          unfold sessionInv
          rw [(initBrowser_frame true now _).1, (initBrowser_frame true now _).2.1]
          exact reap_inv env.reapEnv false _ h
        · obtain ⟨_, hok⟩ := sendMessages_shape env c cs2 df now st
          obtain ⟨st0, lz, _, _, hinv, heq⟩ := hok hn
          rw [heq]
          simp only
          unfold sessionInv
          rw [runContacts_active, runContacts_activeTabs]
          exact hinv h

/-- Witness for C4: the invariant-preservation conjuncts applied at
concrete states. -/
theorem c4_session_invariant_witness :
    sessionInv (closeExistingWhatsAppTabs quietReap true readyState).session
    ∧ sessionInv (whatsappStatus ⟨false⟩ readyState).2.session
    ∧ (initBrowser false 0 freshState).2.session.initDone = true :=
  ⟨c4_session_invariant.1 quietReap true readyState (by decide),
   c4_session_invariant.2.1 ⟨false⟩ readyState (by decide),
   c4_session_invariant.2.2.2.2.2.1⟩

end WaServer
